import Mathlib

/-!
Shallow embedding of the airport-api-service validation core.

Times are modelled as integers (seconds since an arbitrary epoch); Python
`timedelta(hours = n)` becomes `hours n = n * 3600` seconds.  Django
`ValidationError`-raising validators become functions into `Except E Unit`
with a tagged error constructor per raise site; the data each message
interpolates is carried as the constructor's payload.  The relational store
is a pair of lists (flights, routes); queryset filters become list filters
and `order_by(-arrival_time).first()` becomes picking a maximal element.
-/

def hours (n : Int) : Int := n * 3600

structure Airport where
  name : String
  closest_big_city : String
deriving DecidableEq

structure Route where
  source : Airport
  destination : Airport
  distance : Int
deriving DecidableEq

/-- `Route.full_route` property: `f"{self.source.name} - {self.destination.name}"`. -/
def Route.full_route (r : Route) : String :=
  r.source.name ++ " - " ++ r.destination.name

structure Airplane where
  name : String
  rows : Int
  seats_in_row : Int
deriving DecidableEq

structure Flight where
  route : Route
  airplane : Airplane
  departure_time : Int
  arrival_time : Int
deriving DecidableEq

/-- Errors raised by the flight validators; one constructor per raise site in
`Flight.validate_flight_time`, `Flight.validate_flight_departure_location`. -/
inductive FlightError where
  | timeOrder
  | beforePreviousArrival (previousArrival nextPossible : Int)
  | restViolation (previousArrival nextPossible : Int)
  | maxGapExceeded (previousArrival departure : Int)
  | continuity (availableRouteList : Option String)
deriving DecidableEq

/-- `Flight.validate_flight_time` (models.py lines 112-144): reject when
departure is not strictly before arrival; then, when a previous arrival time
is given, reject departure before it, departure within 3 hours after it, and
departure more than 24 hours after it. -/
def Flight.validate_flight_time (departure_time arrival_time : Int)
    (previous_arrival_time : Option Int) : Except FlightError Unit :=
  if departure_time ≥ arrival_time then
    .error .timeOrder
  else
    match previous_arrival_time with
    | none => .ok ()
    | some prev =>
      if departure_time < prev then
        .error (.beforePreviousArrival prev (prev + hours 3))
      else if departure_time < prev + hours 3 then
        .error (.restViolation prev (prev + hours 3))
      else if departure_time - prev > hours 24 then
        .error (.maxGapExceeded prev departure_time)
      else
        .ok ()

/-- `Flight.validate_flight_departure_location` (models.py lines 146-164):
reject when the candidate's source differs from the previous flight's
destination; the error carries the (optional) formatted list of routes that
depart from the previous destination, mirroring the two message variants. -/
def Flight.validate_flight_departure_location (source previous_destination : Airport)
    (available_route_list : Option String) : Except FlightError Unit :=
  if source ≠ previous_destination then
    .error (.continuity available_route_list)
  else
    .ok ()

/-- The relational store the validators query: all persisted flights and routes. -/
structure Store where
  flights : List Flight
  routes : List Route
deriving DecidableEq

/-- `order_by(-arrival_time).first()` on a list: the element with maximal
`arrival_time`, the earliest such element on ties (stable descending sort). -/
def maxByArrival : List Flight → Option Flight
  | [] => none
  | f :: fs =>
    match maxByArrival fs with
    | none => some f
    | some g => if f.arrival_time < g.arrival_time then some g else some f

/-- `Flight.objects.filter(airplane=...).order_by(-arrival_time).first()`
(models.py lines 169-174). -/
def previousFlightOf (store : Store) (airplane : Airplane) : Option Flight :=
  maxByArrival (store.flights.filter (fun g => decide (g.airplane = airplane)))

/-- `Route.objects.filter(source=...)` joined with `, ` when non-empty,
else `None` (models.py lines 180-183). -/
def availableRouteListFor (store : Store) (dest : Airport) : Option String :=
  let available := store.routes.filter (fun r => decide (r.source = dest))
  if available.isEmpty then none
  else some (String.intercalate ", " (available.map Route.full_route))

/-- Body of `Flight.clean` after the previous-flight lookup (models.py lines
177-197): when a previous flight exists, the departure-location check runs
first, then the time check with its arrival time; otherwise only the time
check with no previous arrival. -/
def Flight.cleanWith (store : Store) (self : Flight) (previous_flight : Option Flight) :
    Except FlightError Unit :=
  match previous_flight with
  | some pf =>
    match Flight.validate_flight_departure_location self.route.source
        pf.route.destination (availableRouteListFor store pf.route.destination) with
    | .error e => .error e
    | .ok _ =>
      Flight.validate_flight_time self.departure_time self.arrival_time
        (some pf.arrival_time)
  | none =>
    Flight.validate_flight_time self.departure_time self.arrival_time none

/-- `Flight.clean` (models.py lines 166-197), run on every save via
`full_clean`. -/
def Flight.clean (store : Store) (self : Flight) : Except FlightError Unit :=
  Flight.cleanWith store self (previousFlightOf store self.airplane)

/-- `FlightSerializer.validate` (serializers.py lines 77-113), translated
independently of `Flight.clean`: same lookup, same checks, returns the data
on success. -/
def FlightSerializer.validate (store : Store) (data : Flight) :
    Except FlightError Flight :=
  let previous_flight :=
    maxByArrival (store.flights.filter (fun g => decide (g.airplane = data.airplane)))
  match previous_flight with
  | some pf =>
    let available_routes := store.routes.filter (fun r => decide (r.source = pf.route.destination))
    let available_route_list :=
      if available_routes.isEmpty then none
      else some (String.intercalate ", " (available_routes.map Route.full_route))
    match Flight.validate_flight_departure_location data.route.source
        pf.route.destination available_route_list with
    | .error e => .error e
    | .ok _ =>
      match Flight.validate_flight_time data.departure_time data.arrival_time
          (some pf.arrival_time) with
      | .error e => .error e
      | .ok _ => .ok data
  | none =>
    match Flight.validate_flight_time data.departure_time data.arrival_time none with
    | .error e => .error e
    | .ok _ => .ok data

example : Flight.validate_flight_time 10800 200000 (some 0) = .ok () := rfl

example : (Flight.validate_flight_time 10799 200000 (some 0)).isOk = false := by decide

example : (Flight.validate_flight_time 86401 200000 (some 0)).isOk = false := by decide

example : Flight.validate_flight_time 86400 200000 (some 0) = .ok () := rfl

/-- Errors raised by the ticket/order validators; one constructor per raise
site, plus the `allow_empty=False` rejection of an empty ticket list. -/
inductive TicketError where
  | rangeViolation (fieldName : String) (attrName : String) (upperBound : Int)
  | pastBooking (createdAt departureTime : Int)
  | emptyTickets
deriving DecidableEq

/-- `Ticket.validate_ticket_row_seat` (models.py lines 238-253): the loop over
[(row, "row", "rows"), (seat, "seat", "seats_in_row")] unrolled; the first
out-of-range attribute raises, naming the field and the valid range. -/
def Ticket.validate_ticket_row_seat (row seat : Int) (airplane : Airplane) :
    Except TicketError Unit :=
  if ¬ (1 ≤ row ∧ row ≤ airplane.rows) then
    .error (.rangeViolation "row" "rows" airplane.rows)
  else if ¬ (1 ≤ seat ∧ seat ≤ airplane.seats_in_row) then
    .error (.rangeViolation "seat" "seats_in_row" airplane.seats_in_row)
  else
    .ok ()

/-- `Ticket.validate_ticket_flight` (models.py lines 255-266): reject when the
order creation time is strictly after the flight departure time. -/
def Ticket.validate_ticket_flight (order_created_at flight_departure_time : Int) :
    Except TicketError Unit :=
  if order_created_at > flight_departure_time then
    .error (.pastBooking order_created_at flight_departure_time)
  else
    .ok ()

/-- A candidate ticket as submitted to the API: row, seat and the (resolved)
flight it is for. -/
structure TicketSpec where
  row : Int
  seat : Int
  flight : Flight
deriving DecidableEq

/-- `TicketSerializer.validate` (serializers.py lines 162-170): row/seat
bounds against the flight's airplane, returning the data on success. -/
def TicketSerializer.validate (t : TicketSpec) : Except TicketError TicketSpec :=
  match Ticket.validate_ticket_row_seat t.row t.seat t.flight.airplane with
  | .error e => .error e
  | .ok _ => .ok t

/-- The nested `tickets` field validation: each `TicketSerializer.validate`
in order, stopping at the first failure. -/
def validateEachTicket : List TicketSpec → Except TicketError Unit
  | [] => .ok ()
  | t :: ts =>
    match TicketSerializer.validate t with
    | .error e => .error e
    | .ok _ => validateEachTicket ts

/-- The loop of `OrderSerializer.validate` (serializers.py lines 198-203):
the booking cutoff for each ticket in order. -/
def cutoffEachTicket (created_at : Int) : List TicketSpec → Except TicketError Unit
  | [] => .ok ()
  | t :: ts =>
    match Ticket.validate_ticket_flight created_at t.flight.departure_time with
    | .error e => .error e
    | .ok _ => cutoffEachTicket created_at ts

/-- `OrderSerializer.validate` (serializers.py lines 194-204): the effective
creation time is the existing instance's `created_at` when there is one, else
the current time; then every ticket passes the booking cutoff. -/
def OrderSerializer.validate (instance_created_at : Option Int) (now : Int)
    (tickets : List TicketSpec) : Except TicketError Unit :=
  cutoffEachTicket (instance_created_at.getD now) tickets

/-- `Ticket.clean` (models.py lines 268-280), run on every ticket save via
`full_clean`: row/seat bounds, then the booking cutoff. -/
def Ticket.clean (order_created_at : Int) (t : TicketSpec) : Except TicketError Unit :=
  match Ticket.validate_ticket_row_seat t.row t.seat t.flight.airplane with
  | .error e => .error e
  | .ok _ => Ticket.validate_ticket_flight order_created_at t.flight.departure_time

/-- A persisted ticket row: its data plus the creation time of its order. -/
structure PersistedTicket where
  row : Int
  seat : Int
  flight : Flight
  order_created_at : Int
deriving DecidableEq

/-- The store the order endpoint writes to: persisted orders (their creation
times) and persisted tickets. -/
structure OrderStore where
  orders : List Int
  tickets : List PersistedTicket
deriving DecidableEq

/-- The loop body of `OrderSerializer.create` (serializers.py lines 210-211):
`Ticket.objects.create` saves each ticket, and `Ticket.save` runs
`full_clean`, so each insertion re-runs `Ticket.clean`; the first failure
aborts the whole computation. -/
def createTicketsLoop (order_created_at : Int) (store : OrderStore) :
    List TicketSpec → Except TicketError OrderStore
  | [] => .ok store
  | t :: ts =>
    match Ticket.clean order_created_at t with
    | .error e => .error e
    | .ok _ =>
      createTicketsLoop order_created_at
        { store with
          tickets := store.tickets ++ [⟨t.row, t.seat, t.flight, order_created_at⟩] }
        ts

/-- The order-creation pipeline of `OrderSerializer` (serializers.py lines
187-212): the `tickets` field has `allow_empty=False`, so an empty list is
rejected; each nested `TicketSerializer.validate` runs, then
`OrderSerializer.validate` (no instance yet, so the cutoff uses `now`), then
`create` persists the order and each ticket inside `transaction.atomic()`. -/
def OrderSerializer.create (store : OrderStore) (now : Int)
    (ticketSpecs : List TicketSpec) : Except TicketError OrderStore :=
  if ticketSpecs.isEmpty then
    .error .emptyTickets
  else
    match validateEachTicket ticketSpecs with
    | .error e => .error e
    | .ok _ =>
      match OrderSerializer.validate none now ticketSpecs with
      | .error e => .error e
      | .ok _ =>
        createTicketsLoop now { store with orders := store.orders ++ [now] } ticketSpecs

/-- The atomic transaction boundary: on any error the store the caller sees
is the original one (rollback); on success it is the extended one. -/
def orderCreateAtomic (store : OrderStore) (now : Int) (ticketSpecs : List TicketSpec) :
    OrderStore × Option TicketError :=
  match OrderSerializer.create store now ticketSpecs with
  | .ok updated => (updated, none)
  | .error e => (store, some e)

/-- The single error `Route.validate_route` can raise. -/
inductive RouteError where
  | sameAirports
deriving DecidableEq

/-- `Route.validate_route` (models.py lines 34-37): source and destination
must differ; nothing else (in particular, not `distance`) is checked. -/
def Route.validate_route (source destination : Airport) : Except RouteError Unit :=
  if source = destination then
    .error .sameAirports
  else
    .ok ()

/-- `Route.clean` (models.py lines 39-40). -/
def Route.clean (self : Route) : Except RouteError Unit :=
  Route.validate_route self.source self.destination

/-- Route creation: `RouteSerializer.validate` (serializers.py lines 20-22)
runs `Route.validate_route`, then `Route.save` runs `full_clean`, which runs
`Route.clean` — the same check — before persisting the row. -/
def routeCreate (store : Store) (data : Route) : Except RouteError Store :=
  match Route.validate_route data.source data.destination with
  | .error e => .error e
  | .ok _ =>
    match Route.clean data with
    | .error e => .error e
    | .ok _ => .ok { store with routes := store.routes ++ [data] }

example : (routeCreate ⟨[], []⟩ ⟨⟨"A", "a"⟩, ⟨"B", "b"⟩, 0⟩).isOk = true := by decide

example : (Ticket.validate_ticket_row_seat 41 1 ⟨"p", 40, 6⟩) =
    .error (.rangeViolation "row" "rows" 40) := rfl

theorem except_isOk_false_iff {e : Type} {a : Type} (x : Except e a) :
    x.isOk = false ↔ ∀ v : a, x ≠ .ok v := by
  cases x <;> simp [Except.isOk, Except.toBool]

theorem maxByArrival_eq_none_iff (l : List Flight) :
    maxByArrival l = none ↔ l = [] := by
  cases l with
  | nil => simp [maxByArrival]
  | cons f fs =>
    simp only [maxByArrival]
    cases maxByArrival fs with
    | none => simp
    | some g =>
      dsimp only
      split_ifs <;> simp

theorem maxByArrival_spec (l : List Flight) (p : Flight)
    (hp : maxByArrival l = some p) :
    p ∈ l ∧ ∀ g ∈ l, g.arrival_time ≤ p.arrival_time := by
  induction l generalizing p with
  | nil => simp [maxByArrival] at hp
  | cons f fs ih =>
    simp only [maxByArrival] at hp
    cases hm : maxByArrival fs with
    | none =>
      rw [hm] at hp
      have hfs : fs = [] := (maxByArrival_eq_none_iff fs).mp hm
      subst hfs
      simp at hp
      subst hp
      simp
    | some g =>
      rw [hm] at hp
      have hg := ih g hm
      dsimp only at hp
      split_ifs at hp with hlt
      · cases hp
        refine ⟨List.mem_cons_of_mem _ hg.1, ?_⟩
        intro x hx
        rcases List.mem_cons.mp hx with hx | hx
        · subst hx; exact le_of_lt hlt
        · exact hg.2 x hx
      · cases hp
        refine ⟨List.mem_cons_self _ _, ?_⟩
        intro x hx
        rcases List.mem_cons.mp hx with hx | hx
        · subst hx; exact le_refl _
        · exact le_trans (hg.2 x hx) (not_lt.mp hlt)

theorem validate_flight_time_ok_iff (dep arr : Int) (prev : Option Int) :
    Flight.validate_flight_time dep arr prev = .ok () ↔
      (dep < arr ∧ ∀ T, prev = some T → T + hours 3 ≤ dep ∧ dep ≤ T + hours 24) := by
  cases prev with
  | none =>
    simp only [Flight.validate_flight_time]
    split_ifs with h1 <;> simp <;> omega
  | some T =>
    simp only [Flight.validate_flight_time]
    split_ifs with h1 h2 h3 h4 <;> simp [hours] at * <;> omega

/-- C5: `validate_flight_time` rejects with the time-ordering error whenever
departure is not strictly before arrival, with or without a previous arrival
time; and for an airplane with no previous flight, `Flight.clean` applies
only this rule: it accepts exactly when departure is before arrival. -/
theorem C5_time_order_rule (dep arr : Int) (prev : Option Int)
    (store : Store) (f : Flight) :
    (arr ≤ dep → Flight.validate_flight_time dep arr prev = .error .timeOrder) ∧
    (previousFlightOf store f.airplane = none →
      (Flight.clean store f = .ok () ↔ f.departure_time < f.arrival_time)) := by
  constructor
  · intro h
    unfold Flight.validate_flight_time
    rw [if_pos (ge_iff_le.mpr h)]
  · intro h
    unfold Flight.clean
    rw [h]
    unfold Flight.cleanWith
    rw [validate_flight_time_ok_iff]
    simp

/-- C6: `validate_ticket_row_seat` accepts exactly when the row and seat lie
within the airplane's bounds; an out-of-range row is reported first, naming
the `row` field and its range, and an out-of-range seat (with an in-range
row) is reported naming the `seat` field and its range. -/
theorem C6_row_seat_bounds (row seat : Int) (ap : Airplane) :
    (Ticket.validate_ticket_row_seat row seat ap = .ok () ↔
      (1 ≤ row ∧ row ≤ ap.rows ∧ 1 ≤ seat ∧ seat ≤ ap.seats_in_row)) ∧
    (¬ (1 ≤ row ∧ row ≤ ap.rows) →
      Ticket.validate_ticket_row_seat row seat ap =
        .error (.rangeViolation "row" "rows" ap.rows)) ∧
    ((1 ≤ row ∧ row ≤ ap.rows) → ¬ (1 ≤ seat ∧ seat ≤ ap.seats_in_row) →
      Ticket.validate_ticket_row_seat row seat ap =
        .error (.rangeViolation "seat" "seats_in_row" ap.seats_in_row)) := by
  unfold Ticket.validate_ticket_row_seat
  split_ifs with h1 h2 <;> simp_all

/-- C7: `validate_ticket_flight` accepts exactly when the order creation time
is not strictly after the flight departure time (equality accepted); and the
order-level cutoff uses the existing instance's creation time when present,
else the current time. -/
theorem C7_booking_cutoff (created dep now : Int) (inst : Option Int)
    (t : TicketSpec) :
    (Ticket.validate_ticket_flight created dep = .ok () ↔ created ≤ dep) ∧
    (OrderSerializer.validate inst now [t] = .ok () ↔
      inst.getD now ≤ t.flight.departure_time) := by
  constructor
  · unfold Ticket.validate_ticket_flight
    split_ifs with h <;> simp <;> omega
  · simp only [OrderSerializer.validate, cutoffEachTicket, Ticket.validate_ticket_flight]
    split_ifs with h <;> simp <;> omega

instance {e a : Type} [DecidableEq e] [DecidableEq a] : DecidableEq (Except e a) :=
  fun x y =>
    match x, y with
    | .error u, .error v =>
      if h : u = v then .isTrue (by rw [h]) else
        .isFalse (by intro hc; cases hc; exact h rfl)
    | .ok u, .ok v =>
      if h : u = v then .isTrue (by rw [h]) else
        .isFalse (by intro hc; cases hc; exact h rfl)
    | .error _, .ok _ => .isFalse (fun hc => Except.noConfusion hc)
    | .ok _, .error _ => .isFalse (fun hc => Except.noConfusion hc)

theorem exceptUnit_isOk_false_iff {e : Type} (x : Except e Unit) :
    x.isOk = false ↔ x ≠ .ok () := by
  cases x with
  | error u => simp [Except.isOk, Except.toBool]
  | ok v => cases v; simp [Except.isOk, Except.toBool]

def airportA : Airport := ⟨"A", "Acity"⟩

def airportB : Airport := ⟨"B", "Bcity"⟩

def airportC : Airport := ⟨"C", "Ccity"⟩

def plane1 : Airplane := ⟨"plane-1", 40, 6⟩

def routeAB : Route := ⟨airportA, airportB, 600⟩

def routeBC : Route := ⟨airportB, airportC, 700⟩

def routeCA : Route := ⟨airportC, airportA, 800⟩

/-- One persisted flight A→B on `plane1`, arriving at time 10000. -/
def prevFlight1 : Flight := ⟨routeAB, plane1, 0, 10000⟩

def store1 : Store := ⟨[prevFlight1], [routeAB, routeBC]⟩

/-- C1: for a candidate on an airplane whose previous flight arrives at
`p.arrival_time`, with the continuity requirement satisfied and
departure strictly before arrival, the validator rejects departure earlier
than 3 hours after the previous arrival, rejects departure more than 24
hours after it, and accepts any departure in the closed window between the
two bounds. -/
theorem C1_turnaround_window (store : Store) (c p : Flight)
    (hp : previousFlightOf store c.airplane = some p)
    (hcont : c.route.source = p.route.destination)
    (hlt : c.departure_time < c.arrival_time) :
    (c.departure_time < p.arrival_time + hours 3 →
      (Flight.clean store c).isOk = false) ∧
    (p.arrival_time + hours 24 < c.departure_time →
      (Flight.clean store c).isOk = false) ∧
    (p.arrival_time + hours 3 ≤ c.departure_time →
      c.departure_time ≤ p.arrival_time + hours 24 →
      Flight.clean store c = .ok ()) := by
  have hclean : Flight.clean store c =
      Flight.validate_flight_time c.departure_time c.arrival_time
        (some p.arrival_time) := by
    unfold Flight.clean
    rw [hp]
    simp only [Flight.cleanWith, Flight.validate_flight_departure_location]
    rw [if_neg (by simp [hcont])]
  rw [hclean]
  refine ⟨?_, ?_, ?_⟩
  · intro h
    rw [exceptUnit_isOk_false_iff, Ne, validate_flight_time_ok_iff]
    simp only [Option.some.injEq, forall_eq']
    simp only [hours] at h ⊢
    omega
  · intro h
    rw [exceptUnit_isOk_false_iff, Ne, validate_flight_time_ok_iff]
    simp only [Option.some.injEq, forall_eq']
    simp only [hours] at h ⊢
    omega
  · intro h1 h2
    rw [validate_flight_time_ok_iff]
    simp only [Option.some.injEq, forall_eq']
    simp only [hours] at h1 h2 ⊢
    omega

/-- C2: the previous flight used by `Flight.clean` is looked up from the
store by airplane only — it is the stored flight of that airplane with
maximal arrival time — so changing the candidate's departure and arrival
times changes neither the lookup result nor the shape of the validation
run against it. -/
theorem C2_previous_lookup (store : Store) (c : Flight) (d a : Int) :
    Flight.clean store c =
      Flight.cleanWith store c (previousFlightOf store c.airplane) ∧
    previousFlightOf store { c with departure_time := d, arrival_time := a }.airplane =
      previousFlightOf store c.airplane ∧
    Flight.clean store { c with departure_time := d, arrival_time := a } =
      Flight.cleanWith store { c with departure_time := d, arrival_time := a }
        (previousFlightOf store c.airplane) ∧
    ∀ p, previousFlightOf store c.airplane = some p →
      p ∈ store.flights ∧ p.airplane = c.airplane ∧
      ∀ g ∈ store.flights, g.airplane = c.airplane →
        g.arrival_time ≤ p.arrival_time := by
  refine ⟨rfl, rfl, rfl, ?_⟩
  intro p hp
  unfold previousFlightOf at hp
  have hspec := maxByArrival_spec _ p hp
  have hmem := hspec.1
  rw [List.mem_filter] at hmem
  refine ⟨hmem.1, by simpa using hmem.2, ?_⟩
  intro g hg hga
  exact hspec.2 g (List.mem_filter.mpr ⟨hg, by simp [hga]⟩)

/-- C3: when the candidate's source airport differs from the previous
flight's destination, `Flight.clean` rejects with the continuity error no
matter what the candidate's times are, and when routes departing from the
previous destination exist, the error payload is their formatted list. -/
theorem C3_continuity_rejection (store : Store) (c p : Flight)
    (hp : previousFlightOf store c.airplane = some p)
    (hne : c.route.source ≠ p.route.destination) :
    Flight.clean store c =
      .error (.continuity (availableRouteListFor store p.route.destination)) ∧
    (store.routes.filter (fun r => decide (r.source = p.route.destination)) ≠ [] →
      availableRouteListFor store p.route.destination =
        some (String.intercalate ", "
          ((store.routes.filter
            (fun r => decide (r.source = p.route.destination))).map
              Route.full_route))) := by
  constructor
  · unfold Flight.clean
    rw [hp]
    simp only [Flight.cleanWith, Flight.validate_flight_departure_location]
    rw [if_pos hne]
  · intro hne2
    unfold availableRouteListFor
    rw [if_neg (by simpa using hne2)]

/-- C4 counterexample: a candidate violating both the time-ordering rule
(departure after arrival) and the continuity rule is reported with the
continuity error, not the time-ordering error — the continuity check runs
first when a previous flight exists. -/
theorem C4_counterexample :
    (⟨routeCA, plane1, 50000, 40000⟩ : Flight).arrival_time ≤
      (⟨routeCA, plane1, 50000, 40000⟩ : Flight).departure_time ∧
    (⟨routeCA, plane1, 50000, 40000⟩ : Flight).route.source ≠
      prevFlight1.route.destination ∧
    previousFlightOf store1 plane1 = some prevFlight1 ∧
    Flight.clean store1 ⟨routeCA, plane1, 50000, 40000⟩ =
      .error (.continuity (some "B - C")) ∧
    Flight.clean store1 ⟨routeCA, plane1, 50000, 40000⟩ ≠
      .error .timeOrder := by
  refine ⟨by decide, by decide, by decide, by decide, by decide⟩

/-- C4 amended: when a previous flight exists the continuity check is
applied before the time checks, so a candidate that violates both the
time-ordering rule and the continuity rule is reported with the continuity
error; the time-ordering error is only reported when the continuity check
passes or no previous flight exists. -/
theorem C4_check_order (store : Store) (c p : Flight)
    (hp : previousFlightOf store c.airplane = some p)
    (hne : c.route.source ≠ p.route.destination)
    (htime : c.arrival_time ≤ c.departure_time) :
    Flight.clean store c =
      .error (.continuity (availableRouteListFor store p.route.destination)) ∧
    Flight.clean store c ≠ .error .timeOrder := by
  have h1 : Flight.clean store c =
      .error (.continuity (availableRouteListFor store p.route.destination)) := by
    unfold Flight.clean
    rw [hp]
    simp only [Flight.cleanWith, Flight.validate_flight_departure_location]
    rw [if_pos hne]
  refine ⟨h1, ?_⟩
  rw [h1]
  simp

theorem C1_turnaround_window_witness :
    Flight.clean store1 ⟨routeBC, plane1, 20800, 40000⟩ = .ok () ∧
    (Flight.clean store1 ⟨routeBC, plane1, 20799, 40000⟩).isOk = false ∧
    (Flight.clean store1 ⟨routeBC, plane1, 96401, 100000⟩).isOk = false := by
  refine ⟨?_, ?_, ?_⟩
  · exact (C1_turnaround_window store1 ⟨routeBC, plane1, 20800, 40000⟩ prevFlight1
      (by decide) (by decide) (by decide)).2.2 (by decide) (by decide)
  · exact (C1_turnaround_window store1 ⟨routeBC, plane1, 20799, 40000⟩ prevFlight1
      (by decide) (by decide) (by decide)).1 (by decide)
  · exact (C1_turnaround_window store1 ⟨routeBC, plane1, 96401, 100000⟩ prevFlight1
      (by decide) (by decide) (by decide)).2.1 (by decide)

theorem C2_previous_lookup_witness :
    Flight.clean store1 ⟨routeBC, plane1, 500, 600⟩ =
      Flight.cleanWith store1 ⟨routeBC, plane1, 500, 600⟩
        (previousFlightOf store1 plane1) ∧
    previousFlightOf store1 plane1 = some prevFlight1 ∧
    prevFlight1 ∈ store1.flights ∧
    prevFlight1.arrival_time ≤ prevFlight1.arrival_time := by
  have h := C2_previous_lookup store1 ⟨routeBC, plane1, 500, 600⟩ 999 1999
  have hp : previousFlightOf store1 plane1 = some prevFlight1 := by decide
  have h4 := h.2.2.2 prevFlight1 hp
  exact ⟨h.1, hp, h4.1, h4.2.2 prevFlight1 h4.1 h4.2.1⟩

theorem C3_continuity_rejection_witness :
    Flight.clean store1 ⟨routeCA, plane1, 20800, 40000⟩ =
      .error (.continuity (some "B - C")) ∧
    availableRouteListFor store1 prevFlight1.route.destination = some "B - C" := by
  have h := C3_continuity_rejection store1 ⟨routeCA, plane1, 20800, 40000⟩ prevFlight1
    (by decide) (by decide)
  exact ⟨h.1.trans (by decide), (h.2 (by decide)).trans (by decide)⟩

theorem C4_check_order_witness :
    Flight.clean store1 ⟨routeCA, plane1, 70000, 60000⟩ =
      .error (.continuity (some "B - C")) ∧
    Flight.clean store1 ⟨routeCA, plane1, 70000, 60000⟩ ≠ .error .timeOrder := by
  have h := C4_check_order store1 ⟨routeCA, plane1, 70000, 60000⟩ prevFlight1
    (by decide) (by decide) (by decide)
  exact ⟨h.1.trans (by decide), h.2⟩

theorem C5_time_order_rule_witness :
    Flight.validate_flight_time 5 5 (some 0) = .error .timeOrder ∧
    (Flight.clean ⟨[], [routeAB]⟩ ⟨routeAB, plane1, 0, 3600⟩ = .ok () ↔
      (0 : Int) < 3600) := by
  have h1 := (C5_time_order_rule 5 5 (some 0) ⟨[], [routeAB]⟩
    ⟨routeAB, plane1, 0, 3600⟩).1 (by decide)
  have h2 := (C5_time_order_rule 5 5 (some 0) ⟨[], [routeAB]⟩
    ⟨routeAB, plane1, 0, 3600⟩).2 (by decide)
  exact ⟨h1, h2⟩

theorem C6_row_seat_bounds_witness :
    Ticket.validate_ticket_row_seat 41 1 ⟨"p40", 40, 6⟩ =
      .error (.rangeViolation "row" "rows" 40) ∧
    Ticket.validate_ticket_row_seat 1 6 ⟨"p40", 40, 6⟩ = .ok () := by
  have h1 := C6_row_seat_bounds 41 1 ⟨"p40", 40, 6⟩
  have h2 := C6_row_seat_bounds 1 6 ⟨"p40", 40, 6⟩
  exact ⟨h1.2.1 (by decide), h2.1.mpr (by decide)⟩

theorem C7_booking_cutoff_witness :
    (Ticket.validate_ticket_flight 100 100 = .ok () ↔ (100 : Int) ≤ 100) ∧
    (OrderSerializer.validate none 50 [⟨1, 1, prevFlight1⟩] = .ok () ↔
      ((none : Option Int).getD 50) ≤ prevFlight1.departure_time) :=
  C7_booking_cutoff 100 100 50 none ⟨1, 1, prevFlight1⟩

/-- A ticket specification that passes every per-ticket validation for an
order created at time `now`: row and seat within the airplane's bounds and
the flight not yet departed. -/
def ticketOk (now : Int) (t : TicketSpec) : Prop :=
  (1 ≤ t.row ∧ t.row ≤ t.flight.airplane.rows) ∧
  (1 ≤ t.seat ∧ t.seat ≤ t.flight.airplane.seats_in_row) ∧
  now ≤ t.flight.departure_time

instance (now : Int) (t : TicketSpec) : Decidable (ticketOk now t) := by
  unfold ticketOk
  infer_instance

theorem validate_row_seat_ok_iff (row seat : Int) (ap : Airplane) :
    Ticket.validate_ticket_row_seat row seat ap = .ok () ↔
      (1 ≤ row ∧ row ≤ ap.rows) ∧ (1 ≤ seat ∧ seat ≤ ap.seats_in_row) := by
  unfold Ticket.validate_ticket_row_seat
  split_ifs <;> simp_all

theorem validate_ticket_flight_ok_iff (c d : Int) :
    Ticket.validate_ticket_flight c d = .ok () ↔ c ≤ d := by
  unfold Ticket.validate_ticket_flight
  split_ifs with h <;> simp <;> omega

theorem ticket_clean_ok_iff (now : Int) (t : TicketSpec) :
    Ticket.clean now t = .ok () ↔ ticketOk now t := by
  unfold Ticket.clean Ticket.validate_ticket_row_seat Ticket.validate_ticket_flight ticketOk
  split_ifs <;> simp_all

theorem validateEachTicket_ok_iff (ts : List TicketSpec) :
    validateEachTicket ts = .ok () ↔
      ∀ t ∈ ts,
        Ticket.validate_ticket_row_seat t.row t.seat t.flight.airplane = .ok () := by
  induction ts with
  | nil => simp [validateEachTicket]
  | cons t ts ih =>
    simp only [validateEachTicket, TicketSerializer.validate]
    cases h : Ticket.validate_ticket_row_seat t.row t.seat t.flight.airplane with
    | error e =>
      dsimp only
      simp only [List.forall_mem_cons]
      constructor
      · intro hc; exact absurd hc (by simp)
      · intro hc; rw [h] at hc; exact absurd hc.1 (by simp)
    | ok v =>
      cases v
      dsimp only
      simp [List.forall_mem_cons, ih, h]

theorem cutoffEachTicket_ok_iff (c : Int) (ts : List TicketSpec) :
    cutoffEachTicket c ts = .ok () ↔
      ∀ t ∈ ts, c ≤ t.flight.departure_time := by
  induction ts with
  | nil => simp [cutoffEachTicket]
  | cons t ts ih =>
    simp only [cutoffEachTicket]
    cases h : Ticket.validate_ticket_flight c t.flight.departure_time with
    | error e =>
      dsimp only
      simp only [List.forall_mem_cons]
      constructor
      · intro hc; exact absurd hc (by simp)
      · intro hc
        have := (validate_ticket_flight_ok_iff c t.flight.departure_time).mpr hc.1
        rw [h] at this
        exact absurd this (by simp)
    | ok v =>
      cases v
      dsimp only
      have hle := (validate_ticket_flight_ok_iff c t.flight.departure_time).mp h
      simp [List.forall_mem_cons, ih, hle]

theorem createTicketsLoop_all_ok (c : Int) (store : OrderStore) (ts : List TicketSpec)
    (h : ∀ t ∈ ts, Ticket.clean c t = .ok ()) :
    createTicketsLoop c store ts =
      .ok { store with
            tickets := store.tickets ++
              ts.map (fun t => ⟨t.row, t.seat, t.flight, c⟩) } := by
  induction ts generalizing store with
  | nil => simp [createTicketsLoop]
  | cons t ts ih =>
    simp only [createTicketsLoop]
    rw [h t (List.mem_cons_self t ts)]
    dsimp only
    rw [ih _ (fun u hu => h u (List.mem_cons_of_mem _ hu))]
    simp

theorem orderCreate_ok_all_valid (store : OrderStore) (now : Int)
    (ts : List TicketSpec) (s : OrderStore)
    (hc : OrderSerializer.create store now ts = .ok s) :
    ∀ t ∈ ts, ticketOk now t := by
  unfold OrderSerializer.create at hc
  split_ifs at hc with h1
  cases h2 : validateEachTicket ts with
  | error e => rw [h2] at hc; exact absurd hc (by simp)
  | ok v =>
    cases v
    rw [h2] at hc
    dsimp only at hc
    cases h3 : OrderSerializer.validate none now ts with
    | error e => rw [h3] at hc; exact absurd hc (by simp)
    | ok w =>
      cases w
      intro t ht
      have hrs := (validateEachTicket_ok_iff ts).mp h2 t ht
      have hcut : cutoffEachTicket now ts = .ok () := h3
      have hle := (cutoffEachTicket_ok_iff now ts).mp hcut t ht
      have hb := (validate_row_seat_ok_iff t.row t.seat t.flight.airplane).mp hrs
      exact ⟨hb.1, hb.2, hle⟩

/-- C8: order creation is atomic and rejects an empty ticket list: whenever
the pipeline reports an error the caller's store is unchanged; an empty
list is rejected outright; any invalid ticket in the list makes the whole
creation fail; and when all tickets are valid the order and all its tickets
are persisted together. -/
theorem C8_atomic_order_creation (store : OrderStore) (now : Int)
    (ts : List TicketSpec) :
    ((orderCreateAtomic store now ts).2.isSome = true →
      (orderCreateAtomic store now ts).1 = store) ∧
    ((orderCreateAtomic store now []).2 = some .emptyTickets) ∧
    ((∃ t ∈ ts, ¬ ticketOk now t) →
      (orderCreateAtomic store now ts).2.isSome = true) ∧
    (ts ≠ [] → (∀ t ∈ ts, ticketOk now t) →
      orderCreateAtomic store now ts =
        ({ orders := store.orders ++ [now],
           tickets := store.tickets ++
             ts.map (fun t => ⟨t.row, t.seat, t.flight, now⟩) },
         none)) := by
  refine ⟨?_, ?_, ?_, ?_⟩
  · intro h
    unfold orderCreateAtomic at h ⊢
    cases hc : OrderSerializer.create store now ts with
    | ok s => rw [hc] at h; simp at h
    | error e => rfl
  · rfl
  · rintro ⟨t, ht, hbad⟩
    unfold orderCreateAtomic
    cases hc : OrderSerializer.create store now ts with
    | ok s => exact absurd (orderCreate_ok_all_valid store now ts s hc t ht) hbad
    | error e => rfl
  · intro hne hall
    unfold orderCreateAtomic OrderSerializer.create
    rw [if_neg (by simpa using hne)]
    rw [(validateEachTicket_ok_iff ts).mpr
      (fun t ht => (validate_row_seat_ok_iff t.row t.seat t.flight.airplane).mpr
        ⟨(hall t ht).1, (hall t ht).2.1⟩)]
    dsimp only
    have hcut : OrderSerializer.validate none now ts = .ok () :=
      (cutoffEachTicket_ok_iff now ts).mpr (fun t ht => (hall t ht).2.2)
    rw [hcut]
    dsimp only
    rw [createTicketsLoop_all_ok now _ ts
      (fun t ht => (ticket_clean_ok_iff now t).mpr (hall t ht))]

/-- A flight far in the future, used as a booking target. -/
def wFlight : Flight := ⟨routeAB, plane1, 100000, 200000⟩

theorem C8_atomic_order_creation_witness :
    orderCreateAtomic ⟨[], []⟩ 50 [⟨1, 1, wFlight⟩] =
      (⟨[50], [⟨1, 1, wFlight, 50⟩]⟩, none) ∧
    (orderCreateAtomic ⟨[], []⟩ 50 []).2 = some .emptyTickets ∧
    (orderCreateAtomic ⟨[], []⟩ 50 [⟨41, 1, wFlight⟩]).2.isSome = true ∧
    (orderCreateAtomic ⟨[], []⟩ 50 [⟨41, 1, wFlight⟩]).1 = ⟨[], []⟩ := by
  have h := C8_atomic_order_creation ⟨[], []⟩ 50 [⟨1, 1, wFlight⟩]
  have hbad := C8_atomic_order_creation ⟨[], []⟩ 50 [⟨41, 1, wFlight⟩]
  have hsome : (orderCreateAtomic ⟨[], []⟩ 50 [⟨41, 1, wFlight⟩]).2.isSome = true :=
    hbad.2.2.1 ⟨⟨41, 1, wFlight⟩, by decide, by decide⟩
  refine ⟨?_, h.2.1, hsome, hbad.1 hsome⟩
  exact (h.2.2.2 (by decide) (by decide)).trans (by decide)

/-- C9 counterexample: route creation does not validate `distance`: a route
with distance 0 between two distinct airports is accepted and persisted,
so the positive-distance invariant claimed by the spec does not hold. -/
theorem C9_counterexample :
    (⟨airportA, airportB, 0⟩ : Route).distance ≤ 0 ∧
    routeCreate ⟨[], []⟩ ⟨airportA, airportB, 0⟩ =
      .ok ⟨[], [⟨airportA, airportB, 0⟩]⟩ := by
  exact ⟨by decide, by decide⟩

/-- C9 amended: route creation validates only that source and destination
differ; the outcome is independent of `distance`, so non-positive distances
are accepted and no positivity invariant holds for persisted routes. -/
theorem C9_no_distance_validation (store : Store) (r : Route) (d : Int) :
    ((routeCreate store r).isOk = true ↔ r.source ≠ r.destination) ∧
    (routeCreate store { r with distance := d }).isOk =
      (routeCreate store r).isOk := by
  constructor
  · unfold routeCreate Route.clean Route.validate_route
    split_ifs with h <;> simp [Except.isOk, Except.toBool, h]
  · unfold routeCreate Route.clean Route.validate_route
    dsimp only
    split_ifs <;> rfl

theorem C9_no_distance_validation_witness :
    ((routeCreate ⟨[], []⟩ ⟨airportA, airportB, 600⟩).isOk = true ↔
      airportA ≠ airportB) ∧
    (routeCreate ⟨[], []⟩ ⟨airportA, airportB, -5⟩).isOk =
      (routeCreate ⟨[], []⟩ ⟨airportA, airportB, 600⟩).isOk :=
  C9_no_distance_validation ⟨[], []⟩ ⟨airportA, airportB, 600⟩ (-5)

/-- C10: the model-layer validation (`Flight.clean`, run on save) and the
API-layer validation (`FlightSerializer.validate`) perform the same lookup
and the same checks in the same order: on every store and candidate they
return the same outcome (the serializer additionally returns the data on
success). -/
theorem C10_model_api_equivalence (store : Store) (f : Flight) :
    FlightSerializer.validate store f = (Flight.clean store f).map (fun _ => f) := by
  unfold FlightSerializer.validate Flight.clean Flight.cleanWith previousFlightOf
    availableRouteListFor
  cases maxByArrival (store.flights.filter fun g => decide (g.airplane = f.airplane)) with
  | none =>
    dsimp only
    cases Flight.validate_flight_time f.departure_time f.arrival_time none with
    | error e => rfl
    | ok v => cases v; rfl
  | some pf =>
    dsimp only
    cases Flight.validate_flight_departure_location f.route.source pf.route.destination
        (if (store.routes.filter fun r => decide (r.source = pf.route.destination)).isEmpty
          then none
          else some (String.intercalate ", "
            ((store.routes.filter fun r => decide (r.source = pf.route.destination)).map
              Route.full_route))) with
    | error e => rfl
    | ok v =>
      cases v
      cases Flight.validate_flight_time f.departure_time f.arrival_time
          (some pf.arrival_time) with
      | error e => rfl
      | ok w => cases w; rfl
